import Mathlib

/-!
Verification of the pricing-and-revenue model engine of
`MyBosker_income_calculator_neteffect` (src/app.py).

The engine is pure floating-point arithmetic; we embed it shallowly over the
real numbers `ℝ`, the standard idealisation of IEEE floats for this kind of
numeric contract.  The Python-level numeric exceptions that the source's
`try/except` blocks guard against are made explicit with `Except Unit`:
a checked evaluator errors exactly at the source's division sites
(`N / N0` with `N0 == 0` raises `ZeroDivisionError`, `N / N1` with
`N1 == 0` likewise, and the final `C / (1 + (N/N1)**r)` when that
denominator is zero).  The public entry points are then the source's
try/except blocks: they pattern-match on the checked result and substitute
the documented fallback values on error.

The source stores the parameters in the mutable mapping
`st.session_state.params`; we embed it as a structure, and thread it
explicitly through the state-passing variants of the public operations so
that frame (read-only) properties can be stated.
-/

open Classical

/-- The parameter mapping `st.session_state.params` of src/app.py
(lines 22-31): keys `P_min, K, q, N0, C, r, N1` plus the evaluation
point `N`, all floating-point values.  The evaluation point is passed
separately below, as the engine functions take `N` as an argument. -/
structure Params where
  P_min : ℝ
  K : ℝ
  q : ℝ
  N0 : ℝ
  C : ℝ
  r : ℝ
  N1 : ℝ

/-- Default parameter values from src/app.py lines 22-31
(`P_min=20, K=100, q=0.2, N0=15, C=50, r=1.5, N1=100`). -/
def defaultParams : Params :=
  { P_min := 20, K := 100, q := 0.2, N0 := 15, C := 50, r := 1.5, N1 := 100 }

/-- `calculate_price` (src/app.py lines 82-95):
`P(N) = P_min + K*exp(-q*(N/N0)) + C/(1+(N/N1)^r)`.
`**` on floats is embedded as real `rpow`. -/
noncomputable def calculate_price (N : ℝ) (p : Params) : ℝ :=
  p.P_min + p.K * Real.exp (-p.q * (N / p.N0)) + p.C / (1 + (N / p.N1) ^ p.r)

/-- `calculate_income` (src/app.py lines 101-103): `I(N) = P(N) * N`. -/
noncomputable def calculate_income (N : ℝ) (p : Params) : ℝ :=
  calculate_price N p * N

/-- `calculate_price_derivative` (src/app.py lines 97-99): central finite
difference of `calculate_price`; the step `h` defaults to `1e-5` in the
source and every call site uses that default. -/
noncomputable def calculate_price_derivative (N : ℝ) (p : Params) (h : ℝ) : ℝ :=
  (calculate_price (N + h) p - calculate_price (N - h) p) / (2 * h)

/-- `calculate_income_derivative` (src/app.py lines 105-107). -/
noncomputable def calculate_income_derivative (N : ℝ) (p : Params) (h : ℝ) : ℝ :=
  (calculate_income (N + h) p - calculate_income (N - h) p) / (2 * h)

/-- `calculate_income_second_derivative` (src/app.py lines 109-113). -/
noncomputable def calculate_income_second_derivative (N : ℝ) (p : Params) (h : ℝ) : ℝ :=
  (calculate_income (N + h) p - 2 * calculate_income N p + calculate_income (N - h) p) / h ^ 2

/-- The conditions under which the body of `calculate_price` raises a
Python numeric exception: `N / N0` raises `ZeroDivisionError` when
`N0 == 0`, `N / N1` when `N1 == 0`, and the division by
`1 + (N/N1)**r` when that denominator is zero.  (Real arithmetic does
not overflow, so float-overflow conditions have no counterpart here.) -/
def priceRaises (N : ℝ) (p : Params) : Prop :=
  p.N0 = 0 ∨ p.N1 = 0 ∨ 1 + (N / p.N1) ^ p.r = 0

/-- `calculate_price` with the Python exception behaviour made explicit:
errors exactly when the source body raises, otherwise returns the price. -/
noncomputable def calc_price_checked (N : ℝ) (p : Params) : Except Unit ℝ :=
  if priceRaises N p then Except.error () else Except.ok (calculate_price N p)

/-- `calculate_income` with exception behaviour: the only fallible
subexpression is the `calculate_price` call. -/
noncomputable def calc_income_checked (N : ℝ) (p : Params) : Except Unit ℝ :=
  Except.map (fun price => price * N) (calc_price_checked N p)

/-- `calculate_price_derivative` with exception behaviour: both inner
price evaluations may raise. -/
noncomputable def calc_price_derivative_checked (N : ℝ) (p : Params) (h : ℝ) :
    Except Unit ℝ := do
  let a ← calc_price_checked (N + h) p
  let b ← calc_price_checked (N - h) p
  pure ((a - b) / (2 * h))

/-- `calculate_income_derivative` with exception behaviour. -/
noncomputable def calc_income_derivative_checked (N : ℝ) (p : Params) (h : ℝ) :
    Except Unit ℝ := do
  let a ← calc_income_checked (N + h) p
  let b ← calc_income_checked (N - h) p
  pure ((a - b) / (2 * h))

/-- `calculate_income_second_derivative` with exception behaviour. -/
noncomputable def calc_income_second_derivative_checked (N : ℝ) (p : Params) (h : ℝ) :
    Except Unit ℝ := do
  let a ← calc_income_checked (N + h) p
  let b ← calc_income_checked N p
  let c ← calc_income_checked (N - h) p
  pure ((a - 2 * b + c) / h ^ 2)

/-- The body of the point-evaluation `try` block (src/app.py lines
120-125): the five quantities computed in order, any raise aborting the
whole block.  Every derivative call uses the default step `h = 1e-5`. -/
noncomputable def pointChecked (p : Params) (N : ℝ) :
    Except Unit (ℝ × ℝ × ℝ × ℝ × ℝ) := do
  let price ← calc_price_checked N p
  let income ← calc_income_checked N p
  let dP ← calc_price_derivative_checked N p 1e-5
  let dI ← calc_income_derivative_checked N p 1e-5
  let d2I ← calc_income_second_derivative_checked N p 1e-5
  pure (price, income, dP, dI, d2I)

/-- The fallback values of the point-evaluation `except` branch
(src/app.py lines 128-133): `current_price = P_min + K`,
`current_income = (P_min + K) * N`, all three derivatives `0`. -/
noncomputable def pointFallback (p : Params) (N : ℝ) : ℝ × ℝ × ℝ × ℝ × ℝ :=
  (p.P_min + p.K, (p.P_min + p.K) * N, 0, 0, 0)

/-- Result of one point evaluation: the five numeric values of
src/app.py lines 120-133 plus the three condition flags of lines 136-138. -/
structure EvalResult where
  price : ℝ
  income : ℝ
  dP_dN : ℝ
  dI_dN : ℝ
  d2I_dN2 : ℝ
  cond1 : Prop
  cond2 : Prop
  cond3 : Prop

/-- Build the `EvalResult` from the five numeric values; the flags are
computed from those values exactly as in src/app.py lines 136-138:
`cond1 = dP_dN < 0`, `cond2 = dI_dN > 0`, `cond3 = d2I_dN2 < 0`. -/
noncomputable def mkEvalResult (v : ℝ × ℝ × ℝ × ℝ × ℝ) : EvalResult :=
  { price := v.1
    income := v.2.1
    dP_dN := v.2.2.1
    dI_dN := v.2.2.2.1
    d2I_dN2 := v.2.2.2.2
    cond1 := v.2.2.1 < 0
    cond2 := v.2.2.2.1 > 0
    cond3 := v.2.2.2.2 < 0 }

/-- The public point-evaluation operation: the whole try/except of
src/app.py lines 120-133 followed by the condition flags of lines
136-138.  Total by construction: an error in the checked computation is
converted to the fallback values. -/
noncomputable def evaluatePoint (p : Params) (N : ℝ) : EvalResult :=
  match pointChecked p N with
  | Except.ok v => mkEvalResult v
  | Except.error _ => mkEvalResult (pointFallback p N)

/-- State-passing form of point evaluation.  No statement of
src/app.py lines 82-138 assigns to the parameter mapping — both the
`try` branch and the `except` branch only read `params` — so the
threaded mapping comes back unchanged on either branch. -/
noncomputable def evaluatePointS (p : Params) (N : ℝ) : EvalResult × Params :=
  match pointChecked p N with
  | Except.ok v => (mkEvalResult v, p)
  | Except.error _ => (mkEvalResult (pointFallback p N), p)

/-- The sampled N grid `np.linspace(1, 200, 400)` (src/app.py lines 192
and 200): 400 evenly spaced values from 1 to 200, step `199/399`. -/
noncomputable def grid : List ℝ :=
  (List.range 400).map (fun i : ℕ => 1 + (i : ℝ) * (199 / 399))

/-- Left-to-right evaluation of one list comprehension inside the
sampling `try` block: the first raise aborts the whole comprehension. -/
noncomputable def mapExcept (f : ℝ → Except Unit ℝ) : List ℝ → Except Unit (List ℝ)
  | [] => Except.ok []
  | a :: l => Except.bind (f a) (fun b => Except.map (fun bs => b :: bs) (mapExcept f l))

/-- A sampled curve (src/app.py lines 191-204): the N grid and the four
value lists `P_values, I_values, dI_values, d2I_values`. -/
structure CurveSample where
  Ns : List ℝ
  Ps : List ℝ
  Is : List ℝ
  dIs : List ℝ
  d2Is : List ℝ

/-- The body of the sampling `try` block (src/app.py lines 191-196):
the four comprehensions over the grid, in order, any raise aborting the
whole block. -/
noncomputable def sampleChecked (p : Params) : Except Unit CurveSample := do
  let Ps ← mapExcept (fun n => calc_price_checked n p) grid
  let Is ← mapExcept (fun n => calc_income_checked n p) grid
  let dIs ← mapExcept (fun n => calc_income_derivative_checked n p 1e-5) grid
  let d2Is ← mapExcept (fun n => calc_income_second_derivative_checked n p 1e-5) grid
  pure { Ns := grid, Ps := Ps, Is := Is, dIs := dIs, d2Is := d2Is }

/-- The fallback curve of the sampling `except` branch (src/app.py
lines 200-204): the same grid, constant price `P_min + K`, linear
income `(P_min + K) * n`, zero derivative lists. -/
noncomputable def sampleFallback (p : Params) : CurveSample :=
  { Ns := grid
    Ps := grid.map (fun _ => p.P_min + p.K)
    Is := grid.map (fun n => (p.P_min + p.K) * n)
    dIs := grid.map (fun _ => 0)
    d2Is := grid.map (fun _ => 0) }

/-- The public curve-sampling operation: the whole try/except of
src/app.py lines 191-204.  Total by construction: an error anywhere in
the checked sampling is converted to the fallback curve. -/
noncomputable def sample_curve (p : Params) : CurveSample :=
  match sampleChecked p with
  | Except.ok s => s
  | Except.error _ => sampleFallback p

/-- State-passing form of curve sampling.  No statement of src/app.py
lines 191-204 assigns to the parameter mapping, so it is returned
unchanged on either branch. -/
noncomputable def sample_curveS (p : Params) : CurveSample × Params :=
  match sampleChecked p with
  | Except.ok s => (s, p)
  | Except.error _ => (sampleFallback p, p)

/-- The reference closed form from the spec, stated in the spec's own
words: `price(N) = P_min + K * exp(-q * N/N0) + C / (1 + (N/N1)^r)`.
Kept as a separate definition so that the source's `calculate_price`
can be compared against it. -/
noncomputable def spec_price (N : ℝ) (p : Params) : ℝ :=
  p.P_min + p.K * Real.exp (-p.q * N / p.N0) + p.C / (1 + (N / p.N1) ^ p.r)

/-- Modelled from the spec: the model-variant flag.  src/app.py
implements only the exponential-hyperbolic hybrid formula; the basic
hyperbolic variant is an earlier generation of the model that is not in
the repository snapshot, so it is modelled here from the spec. -/
inductive ModelVariant where
  | basic
  | hybrid

/-- Modelled from the spec: price dispatch on the model-variant flag.
The basic hyperbolic variant is `P(N) = P_min + K / (1 + N/N0)^q`
(reading only `P_min, K, N0, q`); the hybrid variant is the source's
`calculate_price`. -/
noncomputable def price_of_variant (v : ModelVariant) (N : ℝ) (p : Params) : ℝ :=
  match v with
  | ModelVariant.basic => p.P_min + p.K / (1 + N / p.N0) ^ p.q
  | ModelVariant.hybrid => calculate_price N p

/-- Modelled from the spec: revenue for a variant is price times N. -/
noncomputable def revenue_of_variant (v : ModelVariant) (N : ℝ) (p : Params) : ℝ :=
  price_of_variant v N p * N

/-- Modelled from the spec: the basic variant's default parameters
`P_min=50, K=80, N0=20, q=2.0`.  The fields the basic formula does not
read are set to 1. -/
def basicDefaults : Params :=
  { P_min := 50, K := 80, q := 2, N0 := 20, C := 1, r := 1, N1 := 1 }

/-- A degenerate parameter set: the defaults with `N0` edited to
exactly 0, the case the spec's N0-contract is about. -/
def degenParams : Params :=
  { P_min := 20, K := 100, q := 0.2, N0 := 0, C := 50, r := 1.5, N1 := 100 }

set_option maxRecDepth 4000

lemma mapExcept_cons (f : ℝ → Except Unit ℝ) (a : ℝ) (l : List ℝ) :
    mapExcept f (a :: l) =
      Except.bind (f a) (fun b => Except.map (fun bs => b :: bs) (mapExcept f l)) := rfl

lemma mapExcept_ok_length (f : ℝ → Except Unit ℝ) :
    ∀ (l l' : List ℝ), mapExcept f l = Except.ok l' → l'.length = l.length := by
  intro l
  induction l with
  | nil => intro l' h; cases h; rfl
  | cons a t ih =>
    intro l' h
    rw [mapExcept_cons] at h
    cases hfa : f a with
    | error u => rw [hfa] at h; cases h
    | ok b =>
      rw [hfa] at h
      cases hmt : mapExcept f t with
      | error u => rw [hmt] at h; cases h
      | ok bs =>
        rw [hmt] at h
        cases h
        simp [ih bs hmt]

lemma calc_price_checked_ok (N : ℝ) (p : Params) (h : ¬ priceRaises N p) :
    calc_price_checked N p = Except.ok (calculate_price N p) := by
  rw [calc_price_checked, if_neg h]

lemma calc_price_checked_error_of_N0 (N : ℝ) (p : Params) (h : p.N0 = 0) :
    calc_price_checked N p = Except.error () := by
  have hr : priceRaises N p := Or.inl h
  rw [calc_price_checked, if_pos hr]

lemma pointChecked_ok (p : Params) (N : ℝ) (h0 : ¬ priceRaises N p)
    (hp : ¬ priceRaises (N + 1e-5) p) (hm : ¬ priceRaises (N - 1e-5) p) :
    pointChecked p N = Except.ok
      (calculate_price N p, calculate_income N p,
        calculate_price_derivative N p 1e-5,
        calculate_income_derivative N p 1e-5,
        calculate_income_second_derivative N p 1e-5) := by
  simp only [pointChecked, calc_price_derivative_checked, calc_income_derivative_checked,
    calc_income_second_derivative_checked, calc_income_checked,
    calc_price_checked_ok _ _ h0, calc_price_checked_ok _ _ hp, calc_price_checked_ok _ _ hm]
  rfl

lemma pointChecked_error_of_N0 (p : Params) (N : ℝ) (h : p.N0 = 0) :
    pointChecked p N = Except.error () := by
  unfold pointChecked
  rw [calc_price_checked_error_of_N0 N p h]
  rfl

lemma not_priceRaises_of_pos (N : ℝ) (p : Params) (h0 : p.N0 ≠ 0) (h1 : 0 < p.N1)
    (hN : 0 < N) : ¬ priceRaises N p := by
  rw [priceRaises]
  push_neg
  refine ⟨h0, ne_of_gt h1, ?_⟩
  have hpos : (0 : ℝ) < (N / p.N1) ^ p.r := Real.rpow_pos_of_pos (by positivity) _
  positivity

lemma grid_length : grid.length = 400 := by simp [grid]

lemma grid_get (j : ℕ) (hj : j < grid.length) :
    grid.get ⟨j, hj⟩ = 1 + (j : ℝ) * (199 / 399) := by
  rw [List.get_eq_getElem]
  simp [grid]

lemma grid_cons :
    grid = 1 :: ((List.range 399).map fun i : ℕ => 1 + ((i + 1 : ℕ) : ℝ) * (199 / 399)) := by
  have h400 : (400 : ℕ) = 399 + 1 := rfl
  rw [grid, h400, List.range_succ_eq_map]
  simp [List.map_map, Function.comp]

lemma sampleChecked_error_of_N0 (p : Params) (h : p.N0 = 0) :
    sampleChecked p = Except.error () := by
  unfold sampleChecked
  rw [grid_cons, mapExcept_cons, calc_price_checked_error_of_N0 _ p h]
  rfl

lemma sampleChecked_ok_inv (p : Params) (s : CurveSample)
    (h : sampleChecked p = Except.ok s) :
    s.Ns = grid ∧ s.Ps.length = 400 ∧ s.Is.length = 400 ∧
      s.dIs.length = 400 ∧ s.d2Is.length = 400 := by
  unfold sampleChecked at h
  cases h1 : mapExcept (fun n => calc_price_checked n p) grid with
  | error u => rw [h1] at h; cases h
  | ok Ps =>
    rw [h1] at h
    cases h2 : mapExcept (fun n => calc_income_checked n p) grid with
    | error u => rw [h2] at h; cases h
    | ok Is =>
      rw [h2] at h
      cases h3 : mapExcept (fun n => calc_income_derivative_checked n p 1e-5) grid with
      | error u => rw [h3] at h; cases h
      | ok dIs =>
        rw [h3] at h
        cases h4 : mapExcept (fun n => calc_income_second_derivative_checked n p 1e-5) grid with
        | error u => rw [h4] at h; cases h
        | ok d2Is =>
          rw [h4] at h
          cases h
          exact ⟨rfl, by rw [mapExcept_ok_length _ _ _ h1, grid_length],
            by rw [mapExcept_ok_length _ _ _ h2, grid_length],
            by rw [mapExcept_ok_length _ _ _ h3, grid_length],
            by rw [mapExcept_ok_length _ _ _ h4, grid_length]⟩

lemma evaluatePointS_snd (p : Params) (N : ℝ) : (evaluatePointS p N).2 = p := by
  cases h : pointChecked p N <;> simp [evaluatePointS, h]

lemma sample_curveS_snd (p : Params) : (sample_curveS p).2 = p := by
  cases h : sampleChecked p <;> simp [sample_curveS, h]

/-- C1: for every finite parameter set and evaluation point N (negative
N, N0 = 0 and N1 = 0 included), the public point-evaluation and
curve-sampling operations are total: each returns either the normally
computed result or, exactly when the checked computation raises, the
documented fallback result — no numeric exception escapes to the
caller. -/
theorem evaluate_and_sample_never_raise (p : Params) (N : ℝ) :
    ((∃ v, pointChecked p N = Except.ok v ∧ evaluatePoint p N = mkEvalResult v) ∨
      (pointChecked p N = Except.error () ∧
        evaluatePoint p N = mkEvalResult (pointFallback p N))) ∧
    ((∃ s, sampleChecked p = Except.ok s ∧ sample_curve p = s) ∨
      (sampleChecked p = Except.error () ∧ sample_curve p = sampleFallback p)) := by
  constructor
  · cases h : pointChecked p N with
    | ok v => exact Or.inl ⟨v, rfl, by simp [evaluatePoint, h]⟩
    | error u => cases u; exact Or.inr ⟨rfl, by simp [evaluatePoint, h]⟩
  · cases h : sampleChecked p with
    | ok s => exact Or.inl ⟨s, rfl, by simp [sample_curve, h]⟩
    | error u => cases u; exact Or.inr ⟨rfl, by simp [sample_curve, h]⟩

/-- C2 counterexample: the claim that point evaluation with N0 = 0
leaves `parameters.N0` equal to 1.0 is false on the code — src/app.py
never writes to `params`, so after evaluating at the degenerate
parameter set the stored N0 is still 0, not 1. -/
theorem evaluate_N0_zero_does_not_reset_N0 :
    (evaluatePointS degenParams 50).2.N0 = 0 ∧ (evaluatePointS degenParams 50).2.N0 ≠ 1 := by
  have h2 : (evaluatePointS degenParams 50).2 = degenParams := evaluatePointS_snd degenParams 50
  constructor
  · rw [h2]
    norm_num [degenParams]
  · rw [h2]
    norm_num [degenParams]

/-- C2 (amended): for every parameter set with N0 = 0 and every
evaluation point N, point evaluation does not raise, returns the price
`P_min + K`, returns 0 for the price derivative, revenue derivative and
revenue second derivative, and leaves `parameters.N0` unchanged at 0
(the code performs no reset to 1.0). -/
theorem evaluate_N0_zero_fallback (p : Params) (N : ℝ) (h : p.N0 = 0) :
    (evaluatePoint p N).price = p.P_min + p.K ∧
    (evaluatePoint p N).dP_dN = 0 ∧
    (evaluatePoint p N).dI_dN = 0 ∧
    (evaluatePoint p N).d2I_dN2 = 0 ∧
    (evaluatePointS p N).2.N0 = 0 := by
  have herr := pointChecked_error_of_N0 p N h
  refine ⟨?_, ?_, ?_, ?_, ?_⟩ <;>
    simp [evaluatePoint, evaluatePointS, herr, mkEvalResult, pointFallback, h]

/-- Witness for C2 (amended) at the degenerate default parameters and
N = 50. -/
theorem evaluate_N0_zero_fallback_witness :
    degenParams.N0 = 0 ∧
    ((evaluatePoint degenParams 50).price = degenParams.P_min + degenParams.K ∧
      (evaluatePoint degenParams 50).dP_dN = 0 ∧
      (evaluatePoint degenParams 50).dI_dN = 0 ∧
      (evaluatePoint degenParams 50).d2I_dN2 = 0 ∧
      (evaluatePointS degenParams 50).2.N0 = 0) :=
  ⟨rfl, evaluate_N0_zero_fallback degenParams 50 rfl⟩

/-- C3: for every parameter set with N0 ≠ 0 and N1 ≠ 0 and every
N ≥ 0, `calculate_price` equals the spec's closed form
`P_min + K*exp(-q*N/N0) + C/(1+(N/N1)^r)`, and at the default hybrid
parameters and N = 50 it agrees with the reference evaluation of that
closed form within 1e-6. -/
theorem price_matches_closed_form :
    (∀ (p : Params) (N : ℝ), p.N0 ≠ 0 → p.N1 ≠ 0 → 0 ≤ N →
      calculate_price N p = spec_price N p) ∧
    |calculate_price 50 defaultParams - spec_price 50 defaultParams| < 1e-6 := by
  have key : ∀ (p : Params) (N : ℝ), calculate_price N p = spec_price N p := by
    intro p N
    have harg : -p.q * (N / p.N0) = -p.q * N / p.N0 := by ring
    rw [calculate_price, spec_price, harg]
  exact ⟨fun p N _ _ _ => key p N, by rw [key]; norm_num⟩

/-- Witness for C3 at the default hybrid parameters and N = 50. -/
theorem price_matches_closed_form_witness :
    (defaultParams.N0 ≠ 0 ∧ defaultParams.N1 ≠ 0 ∧ (0 : ℝ) ≤ 50) ∧
    calculate_price 50 defaultParams = spec_price 50 defaultParams := by
  have h0 : defaultParams.N0 ≠ 0 := by norm_num [defaultParams]
  have h1 : defaultParams.N1 ≠ 0 := by norm_num [defaultParams]
  have h2 : (0 : ℝ) ≤ 50 := by norm_num
  exact ⟨⟨h0, h1, h2⟩, price_matches_closed_form.1 defaultParams 50 h0 h1 h2⟩

/-- C4: the basic hyperbolic variant, selected by the model-variant
flag, has price `P_min + K / (1 + N/N0)^q`; at its default parameters
(P_min=50, K=80, N0=20, q=2.0) and N = 50 the price is within 0.1 of
56.53 and the revenue is within 0.1 of 2826.5.  The hybrid flag value
selects the source's `calculate_price`. -/
theorem basic_variant_default_values :
    |price_of_variant ModelVariant.basic 50 basicDefaults - 56.53| ≤ 0.1 ∧
    |revenue_of_variant ModelVariant.basic 50 basicDefaults - 2826.5| ≤ 0.1 ∧
    (∀ (N : ℝ) (p : Params), price_of_variant ModelVariant.hybrid N p = calculate_price N p) := by
  have hp : price_of_variant ModelVariant.basic 50 basicDefaults = 2770 / 49 := by
    show basicDefaults.P_min + basicDefaults.K / (1 + 50 / basicDefaults.N0) ^ basicDefaults.q
      = 2770 / 49
    simp only [basicDefaults]
    rw [show ((2 : ℝ)) = ((2 : ℕ) : ℝ) by norm_num, Real.rpow_natCast]
    norm_num
  have hr : revenue_of_variant ModelVariant.basic 50 basicDefaults = 138500 / 49 := by
    rw [revenue_of_variant, hp]; norm_num
  refine ⟨?_, ?_, fun N p => rfl⟩
  · rw [hp, abs_le]; constructor <;> norm_num
  · rw [hr, abs_le]; constructor <;> norm_num

/-- C5: for every parameter set and every N > 0, the revenue function
is definitionally the price function times N — the source computes
`calculate_income` literally as `calculate_price(N, params) * N`, so
the identity is exact, not approximate. -/
theorem income_eq_price_mul (p : Params) (N : ℝ) (_hN : 0 < N) :
    calculate_income N p = calculate_price N p * N := rfl

/-- Witness for C5 at the default parameters and N = 1. -/
theorem income_eq_price_mul_witness :
    (0 : ℝ) < 1 ∧ calculate_income 1 defaultParams = calculate_price 1 defaultParams * 1 :=
  ⟨one_pos, income_eq_price_mul defaultParams 1 one_pos⟩

/-- C6: for every parameter set and N, the three condition flags of the
evaluation result are exactly the sign tests of the returned
derivatives: `cond1 ↔ dP_dN < 0`, `cond2 ↔ dI_dN > 0`,
`cond3 ↔ d2I_dN2 < 0` (src/app.py lines 136-138). -/
theorem condition_flags_are_derivative_signs (p : Params) (N : ℝ) :
    ((evaluatePoint p N).cond1 ↔ (evaluatePoint p N).dP_dN < 0) ∧
    ((evaluatePoint p N).cond2 ↔ (evaluatePoint p N).dI_dN > 0) ∧
    ((evaluatePoint p N).cond3 ↔ (evaluatePoint p N).d2I_dN2 < 0) := by
  cases h : pointChecked p N <;> simp [evaluatePoint, h, mkEvalResult]

/-- C7: outside the degenerate fallback path (no raise at N or N ± h),
point evaluation returns exactly the derivative functions of the
source, and those are the central finite differences of the very same
`calculate_price` / `calculate_income` used for point evaluation, with
the fixed step h = 1e-5. -/
theorem derivatives_are_central_differences (p : Params) (N : ℝ)
    (h0 : ¬ priceRaises N p) (hp : ¬ priceRaises (N + 1e-5) p)
    (hm : ¬ priceRaises (N - 1e-5) p) :
    pointChecked p N = Except.ok
      (calculate_price N p, calculate_income N p,
        calculate_price_derivative N p 1e-5,
        calculate_income_derivative N p 1e-5,
        calculate_income_second_derivative N p 1e-5) ∧
    calculate_price_derivative N p 1e-5
      = (calculate_price (N + 1e-5) p - calculate_price (N - 1e-5) p) / (2 * 1e-5) ∧
    calculate_income_derivative N p 1e-5
      = (calculate_income (N + 1e-5) p - calculate_income (N - 1e-5) p) / (2 * 1e-5) ∧
    calculate_income_second_derivative N p 1e-5
      = (calculate_income (N + 1e-5) p - 2 * calculate_income N p
          + calculate_income (N - 1e-5) p) / (1e-5 : ℝ) ^ 2 :=
  ⟨pointChecked_ok p N h0 hp hm, rfl, rfl, rfl⟩

/-- Witness for C7 at the default parameters and N = 50. -/
theorem derivatives_are_central_differences_witness :
    (¬ priceRaises 50 defaultParams) ∧
    calculate_price_derivative 50 defaultParams 1e-5
      = (calculate_price (50 + 1e-5) defaultParams
          - calculate_price (50 - 1e-5) defaultParams) / (2 * 1e-5) := by
  have h0 : ¬ priceRaises 50 defaultParams := by
    apply not_priceRaises_of_pos <;> norm_num [defaultParams]
  have hp : ¬ priceRaises (50 + 1e-5) defaultParams := by
    apply not_priceRaises_of_pos <;> norm_num [defaultParams]
  have hm : ¬ priceRaises (50 - 1e-5) defaultParams := by
    apply not_priceRaises_of_pos <;> norm_num [defaultParams]
  exact ⟨h0, (derivatives_are_central_differences defaultParams 50 h0 hp hm).2.1⟩

/-- C8: if any point evaluation during curve sampling raises, the whole
sampling operation returns the degenerate curve: the N grid unchanged,
every price equal to `P_min + K`, revenues linear `(P_min + K) * n`,
and both derivative lists identically 0. -/
theorem sampling_error_gives_degenerate_curve (p : Params)
    (herr : sampleChecked p = Except.error ()) :
    (sample_curve p).Ns = grid ∧
    (∀ x ∈ (sample_curve p).Ps, x = p.P_min + p.K) ∧
    (sample_curve p).Is = grid.map (fun n => (p.P_min + p.K) * n) ∧
    (∀ x ∈ (sample_curve p).dIs, x = 0) ∧
    (∀ x ∈ (sample_curve p).d2Is, x = 0) := by
  simp [sample_curve, herr, sampleFallback]

/-- Witness for C8: at the degenerate parameter set (N0 = 0) sampling
does raise internally and produces the degenerate curve. -/
theorem sampling_error_gives_degenerate_curve_witness :
    sampleChecked degenParams = Except.error () ∧
    (sample_curve degenParams).Ns = grid ∧
    (sample_curve degenParams).Is
      = grid.map (fun n => (degenParams.P_min + degenParams.K) * n) := by
  have herr := sampleChecked_error_of_N0 degenParams rfl
  exact ⟨herr, (sampling_error_gives_degenerate_curve degenParams herr).1,
    (sampling_error_gives_degenerate_curve degenParams herr).2.2.1⟩

/-- C9: the sampling grid has exactly 400 strictly increasing, evenly
spaced values spanning [1, 200] with first value 1 and last value 200,
and for every parameter set the sampled curve keeps that grid and has
one value per grid point in each of its four lists. -/
theorem grid_and_sample_shape :
    grid.length = 400 ∧
    List.Pairwise (· < ·) grid ∧
    grid.head? = some 1 ∧
    grid.getLast? = some 200 ∧
    (∀ (i : ℕ) (hi : i + 1 < grid.length),
      grid.get ⟨i + 1, hi⟩ - grid.get ⟨i, Nat.lt_of_succ_lt hi⟩ = 199 / 399) ∧
    (∀ p : Params, (sample_curve p).Ns = grid ∧ (sample_curve p).Ps.length = 400 ∧
      (sample_curve p).Is.length = 400 ∧ (sample_curve p).dIs.length = 400 ∧
      (sample_curve p).d2Is.length = 400) := by
  refine ⟨grid_length, ?_, ?_, ?_, ?_, ?_⟩
  · unfold grid
    refine List.Pairwise.map _ ?_ (List.pairwise_lt_range 400)
    intro a b hab
    have hc : (a : ℝ) < b := by exact_mod_cast hab
    nlinarith
  · have h400 : (400 : ℕ) = 399 + 1 := rfl
    rw [grid, h400, List.range_succ_eq_map]
    simp
  · have h400 : (400 : ℕ) = 399 + 1 := rfl
    rw [grid, h400, List.range_succ, List.map_append]
    simp
    norm_num
  · intro i hi
    rw [grid_get, grid_get]
    push_cast
    ring
  · intro p
    cases h : sampleChecked p with
    | ok s =>
      have hs : sample_curve p = s := by simp [sample_curve, h]
      rw [hs]
      exact sampleChecked_ok_inv p s h
    | error u =>
      cases u
      have hs : sample_curve p = sampleFallback p := by simp [sample_curve, h]
      rw [hs]
      simp [sampleFallback, grid_length]

/-- Witness for C9: the first spacing step of the grid, evaluated via
the theorem at i = 0. -/
theorem grid_and_sample_shape_witness :
    grid.get ⟨1, by rw [grid_length]; norm_num⟩
        - grid.get ⟨0, by rw [grid_length]; norm_num⟩ = 199 / 399 :=
  grid_and_sample_shape.2.2.2.2.1 0 (by rw [grid_length]; norm_num)

/-- C10: the engine only reads the parameter mapping: the state-passing
forms of point evaluation (including its fallback branch) and of curve
sampling (including its fallback branch) return the parameter mapping
unchanged, every field included. -/
theorem engine_reads_but_never_writes_params (p : Params) (N : ℝ) :
    (evaluatePointS p N).2 = p ∧ (sample_curveS p).2 = p :=
  ⟨evaluatePointS_snd p N, sample_curveS_snd p⟩
